import Mathlib

/-!
Shallow embedding of the `analyzeEmotion` Appwrite serverless function.

The repository has two variants of the handler:
  * `src/index.js` (here: `handlerA`): validate, truncate, call Watson NLU
    with retry, normalize, persist one record, respond.
  * `src/unnamed/part_000` (here: `handlerB`): same, plus a configurable
    short-text minimum (`WATSON_MINLEN`, default 8) that short-circuits the
    NLU call and persists a neutral record, plus `createdAt`/`textLen`/`lang`
    fields on the persisted record.

Modelling conventions:
  * JS strings are `List Char`; `String.trim` is modelled over a decidable
    whitespace predicate covering the ASCII whitespace characters.
  * JS runtime values that reach dynamic checks (`!responseId`,
    `typeof text !== "string"`) are modelled by the inductive `JsVal`
    with JS truthiness.
  * `process.env` is a record of `Option` fields; `requireEnv` mirrors the
    source check `!v || String(v).trim() === ""`.  `Number(WATSON_MINLEN || 8)`
    is abstracted to `Option Int` with default `8` (the numeric value the
    coercion yields).
  * External effects are explicit: the NLU provider is a function from the
    attempt index to a result or an error message, the database
    `createDocument` call is a function from the record to an id or an error
    message.  The handler returns, besides the HTTP response, the trace of
    effects it performed: number of NLU invocations, the text passed to the
    NLU call (if any), and the list of `createDocument` calls (the only
    database operation the source ever performs; there is no update or
    delete call anywhere in the code).
  * `new Date().toISOString()` is a single opaque timestamp input sampled at
    invocation start (the `part_000` variant computes `nowIso` once, before
    any external call); asynchronous real-time delays are recorded in the
    retry trace as a list of requested delay durations.
-/

namespace AnalyzeEmotion

/-- JS strings are modelled as lists of characters. -/
abbrev Str := List Char

/-- ASCII whitespace, the decidable approximation of the character class
trimmed by JS `String.prototype.trim`. -/
def isJsWhitespace (c : Char) : Bool :=
  c = ' ' || c = '\t' || c = '\n' || c = '\r' || c = Char.ofNat 11 || c = Char.ofNat 12

/-- Embedding of `text.trim()`: drop whitespace from both ends. -/
def trim (s : Str) : Str :=
  ((s.dropWhile isJsWhitespace).reverse.dropWhile isJsWhitespace).reverse

/-- JS runtime values, as far as the handler's dynamic checks observe them. -/
inductive JsVal : Type where
  | undef : JsVal
  | null : JsVal
  | strv : Str → JsVal
  | num : Rat → JsVal
  | boolv : Bool → JsVal
deriving DecidableEq

/-- JS truthiness of a value (`!v` is `!truthy v`). -/
def JsVal.truthy : JsVal → Bool
  | .undef => false
  | .null => false
  | .strv s => !s.isEmpty
  | .num n => n ≠ 0
  | .boolv b => b

/-- The parsed request body object.  A field that is absent destructures to
`undefined`. -/
structure Body where
  responseId : JsVal := JsVal.undef
  questionId : JsVal := JsVal.undef
  text : JsVal := JsVal.undef
deriving DecidableEq

/-- The raw request body: absent/empty, not valid JSON, or parsed JSON. -/
inductive RawBody : Type where
  | empty : RawBody
  | malformed : RawBody
  | json : Body → RawBody
deriving DecidableEq

/-- Embedding of `parseJson`: `if (!body) return {}; try JSON.parse catch return {}`. -/
def parseJson : RawBody → Body
  | .empty => {}
  | .malformed => {}
  | .json b => b

/-- The environment variables the two handlers read. -/
structure Env where
  appwriteDatabaseId : Option Str := none
  appwriteAnalysisCollectionId : Option Str := none
  watsonLanguage : Option Str := none
  watsonMinLen : Option Int := none
  watsonApiKey : Option Str := none
  watsonUrl : Option Str := none
  appwriteEndpoint : Option Str := none
  appwriteProjectId : Option Str := none
  appwriteApiKey : Option Str := none
deriving DecidableEq

/-- Embedding of `requireEnv`: throw `Missing environment variable: NAME`
when the variable is unset or trims to the empty string. -/
def requireEnv (v : Option Str) (name : Str) : Except Str Str :=
  match v with
  | none => Except.error (("Missing environment variable: ").data ++ name)
  | some s =>
      if trim s = [] then Except.error (("Missing environment variable: ").data ++ name)
      else Except.ok s

/-- Embedding of the JS `x || d` default for optional strings: the default is
taken when the value is absent or the empty string (falsy). -/
def jsOrStr (v : Option Str) (d : Str) : Str :=
  match v with
  | some s => if s.isEmpty then d else s
  | none => d

/-- Embedding of `Number(x || 0)` applied to an optional numeric field: absent
or zero (falsy) yields `0`, otherwise the number itself. -/
def numOr0 (v : Option Rat) : Rat :=
  match v with
  | some x => if x = 0 then 0 else x
  | none => 0

/-- Embedding of `truncate(str, max)`: empty/absent input gives the empty
string, otherwise the string is cut to at most `max` characters. -/
def truncate (s : Option Str) (max : Nat) : Str :=
  match s with
  | none => []
  | some l => if l.isEmpty then [] else if l.length > max then l.take max else l

/-- Trace of one `withRetry` execution: the final result (`Except.error none`
is the JS `throw lastErr` with `lastErr` still `undefined`, reachable only
with zero attempts), the number of invocations of the wrapped operation, and
the list of delays awaited between attempts. -/
structure RetryOutcome (ε α : Type) : Type where
  result : Except (Option ε) α
  calls : Nat
  delays : List Nat

/-- The loop of `withRetry`, structurally recursive on remaining attempts
`r`; `i` is the current attempt index.  A delay is awaited after a failure
only when another attempt remains (`i < attempts - 1` in the source). -/
def withRetryGo (fn : Nat → Except ε α) (delayMs : Nat) :
    Nat → Nat → Option ε → RetryOutcome ε α
  | 0, _, lastErr => ⟨Except.error lastErr, 0, []⟩
  | r + 1, i, _ =>
    match fn i with
    | Except.ok a => ⟨Except.ok a, 1, []⟩
    | Except.error e =>
        let rest := withRetryGo fn delayMs r (i + 1) (some e)
        ⟨rest.result, rest.calls + 1, (if 0 < r then [delayMs] else []) ++ rest.delays⟩

/-- Embedding of `withRetry(fn, { attempts, delayMs })`. -/
def withRetry (fn : Nat → Except ε α) (attempts : Nat) (delayMs : Nat) :
    RetryOutcome ε α :=
  withRetryGo fn delayMs attempts 0 none

/-- The emotion scores object at `result.emotion.document.emotion`; every
field may be absent in a partially populated provider response. -/
structure EmotionScores where
  joy : Option Rat := none
  sadness : Option Rat := none
  anger : Option Rat := none
  fear : Option Rat := none
  disgust : Option Rat := none
deriving DecidableEq

/-- The sentiment document at `result.sentiment.document`. -/
structure SentimentDoc where
  score : Option Rat := none
  label : Option Str := none
deriving DecidableEq

/-- A provider response.  The two optional-chaining paths
`result?.result?.emotion?.document?.emotion` and
`result?.result?.sentiment?.document` are each flattened to a single
`Option`: any missing link in the chain makes the whole path `none`. -/
structure NluResult where
  emotionDocEmotion : Option EmotionScores := none
  sentimentDoc : Option SentimentDoc := none
deriving DecidableEq

/-- The record persisted by `src/index.js` (`analysisData`). -/
structure AnalysisRecordA where
  responseId : JsVal
  questionId : JsVal
  joy : Rat
  sadness : Rat
  anger : Rat
  fear : Rat
  disgust : Rat
  sentiment : Rat
  sentiment_label : Str
  model : Str
  processedAt : Str
deriving DecidableEq

/-- The record persisted by `src/unnamed/part_000`.  The neutral short-text
record carries `note = "too_short"` and no `lang`; the full-analysis record
carries `lang` and no `note`. -/
structure AnalysisRecordB where
  responseId : JsVal
  questionId : JsVal
  joy : Rat
  sadness : Rat
  anger : Rat
  fear : Rat
  disgust : Rat
  sentiment : Rat
  sentiment_label : Str
  model : Str
  processedAt : Str
  createdAt : Str
  textLen : Nat
  lang : Option Str := none
  note : Option Str := none
deriving DecidableEq

/-- The JSON response the handler returns via `res.json(body, status)`. -/
structure Response where
  success : Bool
  status : Nat
  error : Option Str := none
  analysisId : Option Str := none
  skipped : Option Str := none
deriving DecidableEq

/-- Result of one handler invocation: the response together with the trace of
external effects (NLU invocations, the text handed to `nlu.analyze` if the
call was reached, and the `createDocument` calls in order).  `createDocument`
is the only database operation in the source; no update or delete exists. -/
structure Outcome (ρ : Type) : Type where
  response : Response
  nluCalls : Nat
  nluText : Option Str := none
  dbCreates : List ρ
deriving DecidableEq

/-- Inputs of one `src/index.js` invocation: environment, raw body, the
timestamp `new Date().toISOString()` yields, the NLU provider behaviour per
attempt, and the database behaviour per `createDocument` call. -/
structure HandlerInputA : Type where
  env : Env
  body : RawBody
  now : Str
  nlu : Nat → Except Str NluResult
  db : AnalysisRecordA → Except Str Str

/-- Inputs of one `src/unnamed/part_000` invocation. -/
structure HandlerInputB : Type where
  env : Env
  body : RawBody
  now : Str
  nlu : Nat → Except Str NluResult
  db : AnalysisRecordB → Except Str Str

/-- The 400 error message of the validation branch. -/
def invalidPayloadMsg : Str :=
  ("Missing or invalid payload. Expect { responseId, questionId?, text }").data

/-- The fallback error text of the catch branch. -/
def internalErrorMsg : Str := ("Internal error").data

/-- Embedding of `err?.message || "Internal error"` in the catch branch:
an absent or empty (falsy) message falls back to `Internal error`. -/
def caughtMessage : Option Str → Str
  | some m => if m.isEmpty then internalErrorMsg else m
  | none => internalErrorMsg

/-- The 500 response produced by the top-level catch. -/
def catchResponse (m : Option Str) : Response :=
  { success := false, status := 500, error := some (caughtMessage m) }

/-- The 400 response produced by the validation branch. -/
def invalidResponse : Response :=
  { success := false, status := 400, error := some invalidPayloadMsg }

/-- Embedding of the validation test
`!responseId || typeof text !== "string" || text.trim() === ""`:
`none` when the payload is rejected, otherwise the raw text string. -/
def validPayload (b : Body) : Option Str :=
  if b.responseId.truthy then
    match b.text with
    | JsVal.strv t => if trim t = [] then none else some t
    | _ => none
  else none

/-- Embedding of `const { questionId = null } = ...`: an absent field
defaults to `null`. -/
def questionIdOf (b : Body) : JsVal :=
  if b.questionId = JsVal.undef then JsVal.null else b.questionId

/-- Cold-start `getDB()`: constructing the Appwrite client requires three
environment variables, checked in source order. -/
def getDB (env : Env) : Except Str Unit := do
  _ ← requireEnv env.appwriteEndpoint (("APPWRITE_ENDPOINT").data)
  _ ← requireEnv env.appwriteProjectId (("APPWRITE_PROJECT_ID").data)
  _ ← requireEnv env.appwriteApiKey (("APPWRITE_API_KEY").data)
  Except.ok ()

/-- Cold-start `getWatson()`: constructing the Watson client requires two
environment variables, checked in source order. -/
def getWatson (env : Env) : Except Str Unit := do
  _ ← requireEnv env.watsonApiKey (("WATSON_API_KEY").data)
  _ ← requireEnv env.watsonUrl (("WATSON_URL").data)
  Except.ok ()

/-- Embedding of `sentimentDoc?.score` with the
`typeof ... === "number" ? ... : 0` guard. -/
def sentimentScoreOf (sd : Option SentimentDoc) : Rat :=
  (sd.bind (fun d => d.score)).getD 0

/-- Embedding of `sentimentDoc?.label || "neutral"`. -/
def sentimentLabelOf (sd : Option SentimentDoc) : Str :=
  jsOrStr (sd.bind (fun d => d.label)) (("neutral").data)

/-- The normalized full-analysis record of `src/unnamed/part_000`
(lines 105-120). -/
def fullRecordB (b : Body) (res : NluResult) (nowIso : Str) (cleanText : Str)
    (lang : Str) : AnalysisRecordB :=
  let emotions := res.emotionDocEmotion.getD {}
  { responseId := b.responseId
    questionId := questionIdOf b
    joy := numOr0 emotions.joy
    sadness := numOr0 emotions.sadness
    anger := numOr0 emotions.anger
    fear := numOr0 emotions.fear
    disgust := numOr0 emotions.disgust
    sentiment := sentimentScoreOf res.sentimentDoc
    sentiment_label := sentimentLabelOf res.sentimentDoc
    model := ("watson-nlu-v1").data
    processedAt := nowIso
    createdAt := nowIso
    textLen := cleanText.length
    lang := some lang }

/-- The neutral short-text record of `src/unnamed/part_000` (lines 78-89). -/
def neutralRecordB (b : Body) (nowIso : Str) (cleanText : Str) : AnalysisRecordB :=
  { responseId := b.responseId
    questionId := questionIdOf b
    joy := 0
    sadness := 0
    anger := 0
    fear := 0
    disgust := 0
    sentiment := 0
    sentiment_label := ("neutral").data
    model := ("watson-nlu-v1").data
    processedAt := nowIso
    createdAt := nowIso
    textLen := cleanText.length
    note := some (("too_short").data) }

/-- The normalized record of `src/index.js` (`analysisData`, lines 129-141). -/
def fullRecordA (b : Body) (res : NluResult) (nowIso : Str) : AnalysisRecordA :=
  let emotions := res.emotionDocEmotion.getD {}
  { responseId := b.responseId
    questionId := questionIdOf b
    joy := numOr0 emotions.joy
    sadness := numOr0 emotions.sadness
    anger := numOr0 emotions.anger
    fear := numOr0 emotions.fear
    disgust := numOr0 emotions.disgust
    sentiment := sentimentScoreOf res.sentimentDoc
    sentiment_label := sentimentLabelOf res.sentimentDoc
    model := ("watson-nlu-v1").data
    processedAt := nowIso }

/-- Embedding of the `src/unnamed/part_000` handler.  Branches mirror the
source in order: required environment, `WATSON_LANGUAGE`/`WATSON_MINLEN`
defaults, parse + validation, truncate + `nowIso`, `getDB`, the short-text
branch, `getWatson`, the retried NLU call, normalization, `createDocument`,
and the top-level catch funnelling every thrown error to a 500 response. -/
def handlerB (inp : HandlerInputB) : Outcome AnalysisRecordB :=
  match requireEnv inp.env.appwriteDatabaseId (("APPWRITE_DATABASE_ID").data) with
  | Except.error m => ⟨catchResponse (some m), 0, none, []⟩
  | Except.ok _ =>
  match requireEnv inp.env.appwriteAnalysisCollectionId
      (("APPWRITE_ANALYSIS_COLLECTION_ID").data) with
  | Except.error m => ⟨catchResponse (some m), 0, none, []⟩
  | Except.ok _ =>
  let watsonLanguage := jsOrStr inp.env.watsonLanguage (("en").data)
  let minLen : Int := inp.env.watsonMinLen.getD 8
  let b := parseJson inp.body
  match validPayload b with
  | none => ⟨invalidResponse, 0, none, []⟩
  | some t =>
  let cleanText := truncate (some (trim t)) 10000
  let nowIso := inp.now
  match getDB inp.env with
  | Except.error m => ⟨catchResponse (some m), 0, none, []⟩
  | Except.ok _ =>
  if (cleanText.length : Int) < minLen then
    let neutral := neutralRecordB b nowIso cleanText
    match inp.db neutral with
    | Except.error m => ⟨catchResponse (some m), 0, none, [neutral]⟩
    | Except.ok id =>
        ⟨{ success := true, status := 200, analysisId := some id,
           skipped := some (("too_short").data) }, 0, none, [neutral]⟩
  else
    match getWatson inp.env with
    | Except.error m => ⟨catchResponse (some m), 0, none, []⟩
    | Except.ok _ =>
    let r := withRetry inp.nlu 2 600
    match r.result with
    | Except.error e => ⟨catchResponse e, r.calls, some cleanText, []⟩
    | Except.ok res =>
        let saved := fullRecordB b res nowIso cleanText watsonLanguage
        match inp.db saved with
        | Except.error m => ⟨catchResponse (some m), r.calls, some cleanText, [saved]⟩
        | Except.ok id =>
            ⟨{ success := true, status := 200, analysisId := some id },
             r.calls, some cleanText, [saved]⟩

/-- Embedding of the `src/index.js` handler.  Same shape as `handlerB` but
with no short-text branch, no `WATSON_LANGUAGE`/`WATSON_MINLEN`, `getWatson`
before the NLU call and `getDB` only at persistence time, and the smaller
`analysisData` record. -/
def handlerA (inp : HandlerInputA) : Outcome AnalysisRecordA :=
  match requireEnv inp.env.appwriteDatabaseId (("APPWRITE_DATABASE_ID").data) with
  | Except.error m => ⟨catchResponse (some m), 0, none, []⟩
  | Except.ok _ =>
  match requireEnv inp.env.appwriteAnalysisCollectionId
      (("APPWRITE_ANALYSIS_COLLECTION_ID").data) with
  | Except.error m => ⟨catchResponse (some m), 0, none, []⟩
  | Except.ok _ =>
  let b := parseJson inp.body
  match validPayload b with
  | none => ⟨invalidResponse, 0, none, []⟩
  | some t =>
  let cleanText := truncate (some (trim t)) 10000
  match getWatson inp.env with
  | Except.error m => ⟨catchResponse (some m), 0, none, []⟩
  | Except.ok _ =>
  let r := withRetry inp.nlu 2 600
  match r.result with
  | Except.error e => ⟨catchResponse e, r.calls, some cleanText, []⟩
  | Except.ok res =>
      let saved := fullRecordA b res inp.now
      match getDB inp.env with
      | Except.error m => ⟨catchResponse (some m), r.calls, some cleanText, []⟩
      | Except.ok _ =>
      match inp.db saved with
      | Except.error m => ⟨catchResponse (some m), r.calls, some cleanText, [saved]⟩
      | Except.ok id =>
          ⟨{ success := true, status := 200, analysisId := some id },
           r.calls, some cleanText, [saved]⟩

/-- The three response shapes of the handlers: 200 success with an id, the
400 validation rejection, or a 500 with an error message. -/
def wellFormedResponse (r : Response) : Prop :=
  (r.status = 200 ∧ r.success = true ∧ r.analysisId.isSome) ∨
  (r.status = 400 ∧ r.success = false ∧ r.error = some invalidPayloadMsg) ∨
  (r.status = 500 ∧ r.success = false ∧ r.error.isSome)

/-- A configuration with every environment variable set. -/
def envAllSet : Env :=
  { appwriteDatabaseId := some (("db1").data)
    appwriteAnalysisCollectionId := some (("coll1").data)
    watsonApiKey := some (("wkey").data)
    watsonUrl := some (("wurl").data)
    appwriteEndpoint := some (("ep").data)
    appwriteProjectId := some (("proj").data)
    appwriteApiKey := some (("akey").data) }

/-- A valid body whose text passes the default 8-character minimum. -/
def bodyOk : Body :=
  { responseId := JsVal.strv (("r1").data)
    text := JsVal.strv (("I am delighted today").data) }

/-- A valid body whose trimmed text (`"ok"`, 2 characters) is below the
default 8-character minimum. -/
def bodyShort : Body :=
  { responseId := JsVal.strv (("r1").data), text := JsVal.strv (("ok").data) }

/-- An NLU provider that fails on every attempt. -/
def nluAlwaysFail : Nat → Except Str NluResult :=
  fun _ => Except.error (("watson down").data)

/-- An NLU provider that succeeds with a completely empty response. -/
def nluEmptyOk : Nat → Except Str NluResult := fun _ => Except.ok {}

/-- A database that accepts every `createDocument` call (part_000 records). -/
def dbOkB : AnalysisRecordB → Except Str Str := fun _ => Except.ok (("doc1").data)

/-- A database that accepts every `createDocument` call (index.js records). -/
def dbOkA : AnalysisRecordA → Except Str Str := fun _ => Except.ok (("doc1").data)

/-- A valid invocation whose NLU provider fails on both attempts. -/
def cexNluFailInput : HandlerInputB :=
  { env := envAllSet, body := RawBody.json bodyOk, now := ("t0").data,
    nlu := nluAlwaysFail, db := dbOkB }

/-- A valid short-text invocation. -/
def inputShort : HandlerInputB :=
  { env := envAllSet, body := RawBody.json bodyShort, now := ("t0").data,
    nlu := nluEmptyOk, db := dbOkB }

/-- A valid full-path invocation whose NLU response is entirely empty. -/
def inputEmptyNlu : HandlerInputB :=
  { env := envAllSet, body := RawBody.json bodyOk, now := ("t0").data,
    nlu := nluEmptyOk, db := dbOkB }

/-- A 10001-character text, exceeding the 10000-character truncation bound. -/
def longText : Str := List.replicate 10001 'a'

/-- A valid body carrying `longText`. -/
def bodyLong : Body :=
  { responseId := JsVal.strv (("r1").data), text := JsVal.strv longText }

/-- A valid invocation carrying the over-long text. -/
def inputLong : HandlerInputB :=
  { env := envAllSet, body := RawBody.json bodyLong, now := ("t0").data,
    nlu := nluEmptyOk, db := dbOkB }

/-- The over-long invocation against the `src/index.js` handler. -/
def inputLongA : HandlerInputA :=
  { env := envAllSet, body := RawBody.json bodyLong, now := ("t0").data,
    nlu := nluEmptyOk, db := dbOkA }

/-- An invocation with a body that lacks both `responseId` and `text`. -/
def inputMissingFields : HandlerInputB :=
  { env := envAllSet, body := RawBody.json {}, now := ("t0").data,
    nlu := nluEmptyOk, db := dbOkB }

/-- The missing-fields invocation against the `src/index.js` handler. -/
def inputMissingFieldsA : HandlerInputA :=
  { env := envAllSet, body := RawBody.json {}, now := ("t0").data,
    nlu := nluEmptyOk, db := dbOkA }

/-- A valid full-path invocation against the `src/index.js` handler. -/
def inputOkA : HandlerInputA :=
  { env := envAllSet, body := RawBody.json bodyOk, now := ("t0").data,
    nlu := nluEmptyOk, db := dbOkA }

/-- Unfolding lemma: `withRetryGo` with no attempts left throws `lastErr`. -/
theorem withRetryGo_zero (fn : Nat → Except ε α) (d i : Nat) (le : Option ε) :
    withRetryGo fn d 0 i le = ⟨Except.error le, 0, []⟩ := rfl

/-- Unfolding lemma: `withRetryGo` with `r + 1` attempts left runs attempt
`i` and either returns its result or retries. -/
theorem withRetryGo_succ (fn : Nat → Except ε α) (d r i : Nat) (le : Option ε) :
    withRetryGo fn d (r + 1) i le =
      match fn i with
      | Except.ok a => ⟨Except.ok a, 1, []⟩
      | Except.error e =>
          let rest := withRetryGo fn d r (i + 1) (some e)
          ⟨rest.result, rest.calls + 1, (if 0 < r then [d] else []) ++ rest.delays⟩ := rfl

/-- C3: with 2 attempts, the wrapped operation runs at most twice; a success
ends the loop immediately with that result; when every attempt fails, the
error of the last attempt propagates after both attempts, with the single
fixed delay awaited between them — uniformly in the error values, so no
failure kind is treated differently. -/
theorem withRetry_two_attempts {ε α : Type} (fn : Nat → Except ε α) (d : Nat) :
    (withRetry fn 2 d).calls ≤ 2 ∧
    (∀ a, fn 0 = Except.ok a → withRetry fn 2 d = ⟨Except.ok a, 1, []⟩) ∧
    (∀ e a, fn 0 = Except.error e → fn 1 = Except.ok a →
      withRetry fn 2 d = ⟨Except.ok a, 2, [d]⟩) ∧
    (∀ e₀ e₁, fn 0 = Except.error e₀ → fn 1 = Except.error e₁ →
      withRetry fn 2 d = ⟨Except.error (some e₁), 2, [d]⟩) := by
  have h2 : (2 : Nat) = 1 + 1 := rfl
  have h1 : (1 : Nat) = 0 + 1 := rfl
  refine ⟨?_, ?_, ?_, ?_⟩
  · unfold withRetry
    rw [h2, withRetryGo_succ]
    cases hf0 : fn 0 with
    | ok a => simp
    | error e =>
        simp only []
        rw [h1, withRetryGo_succ]
        cases hf1 : fn 1 with
        | ok a => simp
        | error e' => simp [withRetryGo_zero]
  · intro a ha
    unfold withRetry
    rw [h2, withRetryGo_succ, ha]
  · intro e a he ha
    unfold withRetry
    rw [h2, withRetryGo_succ, he]
    simp only []
    rw [h1, withRetryGo_succ, ha]
    simp [withRetryGo_zero]
  · intro e₀ e₁ he₀ he₁
    unfold withRetry
    rw [h2, withRetryGo_succ, he₀]
    simp only []
    rw [h1, withRetryGo_succ, he₁]
    simp [withRetryGo_zero]

/-- C3 witness: a concrete operation failing on attempt 0 and succeeding on
attempt 1 is called exactly twice with one 600 ms delay. -/
theorem withRetry_two_attempts_witness :
    ((fun i => if i = 0 then (Except.error 7 : Except Nat Nat) else Except.ok 42) 0
        = Except.error 7) ∧
    withRetry (fun i => if i = 0 then (Except.error 7 : Except Nat Nat) else Except.ok 42) 2 600
      = ⟨Except.ok 42, 2, [600]⟩ :=
  ⟨rfl,
   (withRetry_two_attempts
      (fun i => if i = 0 then (Except.error 7 : Except Nat Nat) else Except.ok 42)
      600).2.2.1 7 42 rfl rfl⟩

/-- C9: `truncate` yields at most `max` characters, is the identity on
strings no longer than `max`, is idempotent, and maps absent and empty
inputs to the empty string. -/
theorem truncate_bounded_id_idempotent (o : Option Str) (s : Str) (max : Nat) :
    (truncate o max).length ≤ max ∧
    (s.length ≤ max → truncate (some s) max = s) ∧
    truncate (some (truncate o max)) max = truncate o max ∧
    truncate none max = [] ∧
    truncate (some []) max = [] := by
  have key : ∀ (l : Str), (truncate (some l) max).length ≤ max ∧
      (l.length ≤ max → truncate (some l) max = l) := by
    intro l
    constructor
    · simp only [truncate]
      split
      · simp
      · split
        · rw [List.length_take]
          omega
        · omega
    · intro hle
      simp only [truncate]
      split
      · next h0 =>
          rw [List.isEmpty_iff] at h0
          exact h0.symm
      · split
        · next h1 => exact absurd h1 (by omega)
        · rfl
  refine ⟨?_, (key s).2, ?_, rfl, by simp [truncate]⟩
  · cases o with
    | none => simp [truncate]
    | some l => exact (key l).1
  · cases o with
    | none => simp [truncate]
    | some l =>
        have hb : (truncate (some l) max).length ≤ max := (key l).1
        exact (key (truncate (some l) max)).2 hb

/-- C9 witness: concrete checks of the bound, identity, idempotence and
empty-input clauses at `max = 4`. -/
theorem truncate_bounded_id_idempotent_witness :
    (truncate (some (("hello").data)) 4).length ≤ 4 ∧
    truncate (some (("hi").data)) 4 = ("hi").data ∧
    truncate (some (truncate (some (("hello").data)) 4)) 4
      = truncate (some (("hello").data)) 4 ∧
    truncate none 4 = [] ∧
    truncate (some []) 4 = [] :=
  ⟨(truncate_bounded_id_idempotent (some (("hello").data)) (("hi").data) 4).1,
   (truncate_bounded_id_idempotent (some (("hello").data)) (("hi").data) 4).2.1
     (by decide),
   (truncate_bounded_id_idempotent (some (("hello").data)) (("hi").data) 4).2.2.1,
   (truncate_bounded_id_idempotent (some (("hello").data)) (("hi").data) 4).2.2.2.1,
   (truncate_bounded_id_idempotent (some (("hello").data)) (("hi").data) 4).2.2.2.2⟩

/-- Helper: a body missing `responseId`, carrying a non-string `text`, or a
`text` trimming to the empty string fails the validation test. -/
theorem validPayload_eq_none (b : Body)
    (h : b.responseId = JsVal.undef ∨ (∀ s, b.text ≠ JsVal.strv s) ∨
         (∃ s, b.text = JsVal.strv s ∧ trim s = [])) :
    validPayload b = none := by
  rcases h with h | h | ⟨s, hs, ht⟩
  · simp [validPayload, h, JsVal.truthy]
  · simp only [validPayload]
    split
    · cases hx : b.text with
      | strv s => exact absurd hx (h s)
      | undef => rfl
      | null => rfl
      | num n => rfl
      | boolv c => rfl
    · rfl
  · simp only [validPayload, hs]
    split
    · simp [ht]
    · rfl

/-- C5: when the parsed body is missing `responseId`, or its `text` field is
not a string, or the text trims to the empty string, each handler (provided
its two required configuration variables are set, which are checked first)
returns the 400 validation response with `success: false` and an error
message, performs no NLU call and no database write. -/
theorem invalid_payload_rejected (ia : HandlerInputA) (ib : HandlerInputB)
    (da ca dbv cbv : Str)
    (hdbA : requireEnv ia.env.appwriteDatabaseId (("APPWRITE_DATABASE_ID").data)
      = Except.ok da)
    (hcollA : requireEnv ia.env.appwriteAnalysisCollectionId
      (("APPWRITE_ANALYSIS_COLLECTION_ID").data) = Except.ok ca)
    (hbadA : (parseJson ia.body).responseId = JsVal.undef ∨
      (∀ s, (parseJson ia.body).text ≠ JsVal.strv s) ∨
      (∃ s, (parseJson ia.body).text = JsVal.strv s ∧ trim s = []))
    (hdbB : requireEnv ib.env.appwriteDatabaseId (("APPWRITE_DATABASE_ID").data)
      = Except.ok dbv)
    (hcollB : requireEnv ib.env.appwriteAnalysisCollectionId
      (("APPWRITE_ANALYSIS_COLLECTION_ID").data) = Except.ok cbv)
    (hbadB : (parseJson ib.body).responseId = JsVal.undef ∨
      (∀ s, (parseJson ib.body).text ≠ JsVal.strv s) ∨
      (∃ s, (parseJson ib.body).text = JsVal.strv s ∧ trim s = [])) :
    handlerA ia = ⟨invalidResponse, 0, none, []⟩ ∧
    handlerB ib = ⟨invalidResponse, 0, none, []⟩ ∧
    invalidResponse.status = 400 ∧ invalidResponse.success = false ∧
    invalidResponse.error.isSome := by
  have hvA := validPayload_eq_none _ hbadA
  have hvB := validPayload_eq_none _ hbadB
  refine ⟨?_, ?_, rfl, rfl, rfl⟩
  · simp [handlerA, hdbA, hcollA, hvA]
  · simp [handlerB, hdbB, hcollB, hvB]

/-- C5 witness: an all-environment-set invocation with an empty parsed body
is rejected with the 400 response and performs no external effect. -/
theorem invalid_payload_rejected_witness :
    handlerA inputMissingFieldsA = ⟨invalidResponse, 0, none, []⟩ ∧
    handlerB inputMissingFields = ⟨invalidResponse, 0, none, []⟩ ∧
    invalidResponse.status = 400 ∧ invalidResponse.success = false ∧
    invalidResponse.error.isSome :=
  invalid_payload_rejected inputMissingFieldsA inputMissingFields
    (("db1").data) (("coll1").data) (("db1").data) (("coll1").data)
    rfl rfl (Or.inl rfl) rfl rfl (Or.inl rfl)

/-- C7: every invocation of either handler produces exactly one of the three
response shapes — 200 success with an id, the 400 validation rejection, or a
500 failure with an error message — and, the embedding being total, no
exception escapes the handler. -/
theorem handler_response_shapes (ia : HandlerInputA) (ib : HandlerInputB) :
    wellFormedResponse (handlerA ia).response ∧
    wellFormedResponse (handlerB ib).response := by
  constructor
  · unfold handlerA
    cases h1 : requireEnv ia.env.appwriteDatabaseId (("APPWRITE_DATABASE_ID").data) with
    | error m => simp [h1, wellFormedResponse, catchResponse]
    | ok d =>
    cases h2 : requireEnv ia.env.appwriteAnalysisCollectionId
        (("APPWRITE_ANALYSIS_COLLECTION_ID").data) with
    | error m => simp [h1, h2, wellFormedResponse, catchResponse]
    | ok c =>
    cases h3 : validPayload (parseJson ia.body) with
    | none => simp [h1, h2, h3, wellFormedResponse, invalidResponse]
    | some t =>
    cases h4 : getWatson ia.env with
    | error m => simp [h1, h2, h3, h4, wellFormedResponse, catchResponse]
    | ok u =>
    cases h5 : (withRetry ia.nlu 2 600).result with
    | error e => simp [h1, h2, h3, h4, h5, wellFormedResponse, catchResponse]
    | ok res =>
    cases h6 : getDB ia.env with
    | error m => simp [h1, h2, h3, h4, h5, h6, wellFormedResponse, catchResponse]
    | ok u2 =>
    cases h7 : ia.db (fullRecordA (parseJson ia.body) res ia.now) with
    | error m => simp [h1, h2, h3, h4, h5, h6, h7, wellFormedResponse, catchResponse]
    | ok docId => simp [h1, h2, h3, h4, h5, h6, h7, wellFormedResponse]
  · unfold handlerB
    cases h1 : requireEnv ib.env.appwriteDatabaseId (("APPWRITE_DATABASE_ID").data) with
    | error m => simp [h1, wellFormedResponse, catchResponse]
    | ok d =>
    cases h2 : requireEnv ib.env.appwriteAnalysisCollectionId
        (("APPWRITE_ANALYSIS_COLLECTION_ID").data) with
    | error m => simp [h1, h2, wellFormedResponse, catchResponse]
    | ok c =>
    cases h3 : validPayload (parseJson ib.body) with
    | none => simp [h1, h2, h3, wellFormedResponse, invalidResponse]
    | some t =>
    cases h4 : getDB ib.env with
    | error m => simp [h1, h2, h3, h4, wellFormedResponse, catchResponse]
    | ok u =>
    by_cases hc : ((truncate (some (trim t)) 10000).length : Int)
        < ib.env.watsonMinLen.getD 8
    · cases h5 : ib.db (neutralRecordB (parseJson ib.body) ib.now
          (truncate (some (trim t)) 10000)) with
      | error m => simp [h1, h2, h3, h4, h5, hc, wellFormedResponse, catchResponse]
      | ok docId => simp [h1, h2, h3, h4, h5, hc, wellFormedResponse]
    · cases h5 : getWatson ib.env with
      | error m => simp [h1, h2, h3, h4, h5, hc, wellFormedResponse, catchResponse]
      | ok u2 =>
      cases h6 : (withRetry ib.nlu 2 600).result with
      | error e => simp [h1, h2, h3, h4, h5, h6, hc, wellFormedResponse, catchResponse]
      | ok res =>
      cases h7 : ib.db (fullRecordB (parseJson ib.body) res ib.now
          (truncate (some (trim t)) 10000)
          (jsOrStr ib.env.watsonLanguage (("en").data))) with
      | error m =>
          simp [h1, h2, h3, h4, h5, h6, h7, hc, wellFormedResponse, catchResponse]
      | ok docId => simp [h1, h2, h3, h4, h5, h6, h7, hc, wellFormedResponse]

/-- C10: every record the `part_000` handler passes to `createDocument` has
`processedAt` and `createdAt` both equal to the single timestamp sampled at
the start of the invocation, before any external call. -/
theorem record_timestamps_single (ib : HandlerInputB) :
    ∀ rcd ∈ (handlerB ib).dbCreates,
      rcd.processedAt = ib.now ∧ rcd.createdAt = ib.now := by
  intro rcd hmem
  unfold handlerB at hmem
  cases h1 : requireEnv ib.env.appwriteDatabaseId (("APPWRITE_DATABASE_ID").data) with
  | error m => simp [h1] at hmem
  | ok d =>
  cases h2 : requireEnv ib.env.appwriteAnalysisCollectionId
      (("APPWRITE_ANALYSIS_COLLECTION_ID").data) with
  | error m => simp [h1, h2] at hmem
  | ok c =>
  cases h3 : validPayload (parseJson ib.body) with
  | none => simp [h1, h2, h3] at hmem
  | some t =>
  cases h4 : getDB ib.env with
  | error m => simp [h1, h2, h3, h4] at hmem
  | ok u =>
  by_cases hc : ((truncate (some (trim t)) 10000).length : Int)
      < ib.env.watsonMinLen.getD 8
  · cases h5 : ib.db (neutralRecordB (parseJson ib.body) ib.now
        (truncate (some (trim t)) 10000)) with
    | error m =>
        simp [h1, h2, h3, h4, h5, hc] at hmem
        subst hmem
        exact ⟨rfl, rfl⟩
    | ok docId =>
        simp [h1, h2, h3, h4, h5, hc] at hmem
        subst hmem
        exact ⟨rfl, rfl⟩
  · cases h5 : getWatson ib.env with
    | error m => simp [h1, h2, h3, h4, h5, hc] at hmem
    | ok u2 =>
    cases h6 : (withRetry ib.nlu 2 600).result with
    | error e => simp [h1, h2, h3, h4, h5, h6, hc] at hmem
    | ok res =>
    cases h7 : ib.db (fullRecordB (parseJson ib.body) res ib.now
        (truncate (some (trim t)) 10000)
        (jsOrStr ib.env.watsonLanguage (("en").data))) with
    | error m =>
        simp [h1, h2, h3, h4, h5, h6, h7, hc] at hmem
        subst hmem
        exact ⟨rfl, rfl⟩
    | ok docId =>
        simp [h1, h2, h3, h4, h5, h6, h7, hc] at hmem
        subst hmem
        exact ⟨rfl, rfl⟩

/-- C10 witness: the short-text invocation creates one record whose two
timestamps both equal the invocation timestamp. -/
theorem record_timestamps_single_witness :
    (neutralRecordB bodyShort (("t0").data) (("ok").data)).processedAt
        = inputShort.now ∧
    (neutralRecordB bodyShort (("t0").data) (("ok").data)).createdAt
        = inputShort.now :=
  record_timestamps_single inputShort
    (neutralRecordB bodyShort (("t0").data) (("ok").data)) (by decide)

/-- C1: a payload that passes validation and whose truncated trimmed text is
shorter than the configured minimum (default 8) triggers no NLU call, and
the one record handed to `createDocument` is the neutral record: all five
emotion scores and the sentiment are 0, the label is `neutral` and the note
is `too_short`. -/
theorem short_text_neutral_record (ib : HandlerInputB) (d c t : Str)
    (hdb : requireEnv ib.env.appwriteDatabaseId (("APPWRITE_DATABASE_ID").data)
      = Except.ok d)
    (hcoll : requireEnv ib.env.appwriteAnalysisCollectionId
      (("APPWRITE_ANALYSIS_COLLECTION_ID").data) = Except.ok c)
    (hval : validPayload (parseJson ib.body) = some t)
    (hgdb : getDB ib.env = Except.ok ())
    (hshort : ((truncate (some (trim t)) 10000).length : Int)
      < ib.env.watsonMinLen.getD 8) :
    (handlerB ib).nluCalls = 0 ∧ (handlerB ib).nluText = none ∧
    (handlerB ib).dbCreates
      = [neutralRecordB (parseJson ib.body) ib.now (truncate (some (trim t)) 10000)] ∧
    ∀ rcd ∈ (handlerB ib).dbCreates,
      rcd.joy = 0 ∧ rcd.sadness = 0 ∧ rcd.anger = 0 ∧ rcd.fear = 0 ∧
      rcd.disgust = 0 ∧ rcd.sentiment = 0 ∧
      rcd.sentiment_label = ("neutral").data ∧
      rcd.note = some (("too_short").data) := by
  have hmain : (handlerB ib).nluCalls = 0 ∧ (handlerB ib).nluText = none ∧
      (handlerB ib).dbCreates
        = [neutralRecordB (parseJson ib.body) ib.now
            (truncate (some (trim t)) 10000)] := by
    unfold handlerB
    cases h5 : ib.db (neutralRecordB (parseJson ib.body) ib.now
        (truncate (some (trim t)) 10000)) with
    | error m => simp [hdb, hcoll, hval, hgdb, hshort, h5]
    | ok docId => simp [hdb, hcoll, hval, hgdb, hshort, h5]
  refine ⟨hmain.1, hmain.2.1, hmain.2.2, ?_⟩
  intro rcd hmem
  rw [hmain.2.2] at hmem
  simp only [List.mem_singleton] at hmem
  subst hmem
  exact ⟨rfl, rfl, rfl, rfl, rfl, rfl, rfl, rfl⟩

/-- C1 witness: the concrete short-text invocation (`text = "ok"`, default
minimum 8) makes no NLU call and creates exactly the neutral record. -/
theorem short_text_neutral_record_witness :
    (handlerB inputShort).nluCalls = 0 ∧ (handlerB inputShort).nluText = none ∧
    (handlerB inputShort).dbCreates
      = [neutralRecordB (parseJson inputShort.body) inputShort.now
          (truncate (some (trim (("ok").data))) 10000)] ∧
    ∀ rcd ∈ (handlerB inputShort).dbCreates,
      rcd.joy = 0 ∧ rcd.sadness = 0 ∧ rcd.anger = 0 ∧ rcd.fear = 0 ∧
      rcd.disgust = 0 ∧ rcd.sentiment = 0 ∧
      rcd.sentiment_label = ("neutral").data ∧
      rcd.note = some (("too_short").data) :=
  short_text_neutral_record inputShort (("db1").data) (("coll1").data)
    (("ok").data) rfl rfl rfl rfl (by decide)

/-- C6: when the NLU call succeeds but the response lacks the emotion or
sentiment sub-structure — entirely or per field — the corresponding record
fields default to 0 and `neutral`, and the invocation still completes with a
saved record and a 200 success response. -/
theorem upstream_defaults_degrade (ib : HandlerInputB) (d c t doc : Str)
    (res : NluResult)
    (hdb : requireEnv ib.env.appwriteDatabaseId (("APPWRITE_DATABASE_ID").data)
      = Except.ok d)
    (hcoll : requireEnv ib.env.appwriteAnalysisCollectionId
      (("APPWRITE_ANALYSIS_COLLECTION_ID").data) = Except.ok c)
    (hval : validPayload (parseJson ib.body) = some t)
    (hgdb : getDB ib.env = Except.ok ())
    (hfull : ¬ ((truncate (some (trim t)) 10000).length : Int)
      < ib.env.watsonMinLen.getD 8)
    (hw : getWatson ib.env = Except.ok ())
    (hnlu : (withRetry ib.nlu 2 600).result = Except.ok res)
    (hdbok : ib.db (fullRecordB (parseJson ib.body) res ib.now
        (truncate (some (trim t)) 10000)
        (jsOrStr ib.env.watsonLanguage (("en").data))) = Except.ok doc) :
    (handlerB ib).response.success = true ∧
    (handlerB ib).response.status = 200 ∧
    (handlerB ib).dbCreates
      = [fullRecordB (parseJson ib.body) res ib.now
          (truncate (some (trim t)) 10000)
          (jsOrStr ib.env.watsonLanguage (("en").data))] ∧
    ∀ rcd ∈ (handlerB ib).dbCreates,
      (res.emotionDocEmotion = none →
        rcd.joy = 0 ∧ rcd.sadness = 0 ∧ rcd.anger = 0 ∧ rcd.fear = 0 ∧
        rcd.disgust = 0) ∧
      (∀ es, res.emotionDocEmotion = some es →
        (es.joy = none → rcd.joy = 0) ∧ (es.sadness = none → rcd.sadness = 0) ∧
        (es.anger = none → rcd.anger = 0) ∧ (es.fear = none → rcd.fear = 0) ∧
        (es.disgust = none → rcd.disgust = 0)) ∧
      (res.sentimentDoc = none →
        rcd.sentiment = 0 ∧ rcd.sentiment_label = ("neutral").data) ∧
      (∀ sd, res.sentimentDoc = some sd →
        (sd.score = none → rcd.sentiment = 0) ∧
        (sd.label = none → rcd.sentiment_label = ("neutral").data)) := by
  have hmain : (handlerB ib).response.success = true ∧
      (handlerB ib).response.status = 200 ∧
      (handlerB ib).dbCreates
        = [fullRecordB (parseJson ib.body) res ib.now
            (truncate (some (trim t)) 10000)
            (jsOrStr ib.env.watsonLanguage (("en").data))] := by
    unfold handlerB
    simp [hdb, hcoll, hval, hgdb, hfull, hw, hnlu, hdbok]
  refine ⟨hmain.1, hmain.2.1, hmain.2.2, ?_⟩
  intro rcd hmem
  rw [hmain.2.2] at hmem
  simp only [List.mem_singleton] at hmem
  subst hmem
  refine ⟨?_, ?_, ?_, ?_⟩
  · intro hemo
    simp [fullRecordB, hemo, numOr0]
  · intro es hes
    refine ⟨?_, ?_, ?_, ?_, ?_⟩ <;> intro hf <;>
      simp [fullRecordB, hes, hf, numOr0]
  · intro hsd
    simp [fullRecordB, sentimentScoreOf, sentimentLabelOf, hsd, jsOrStr]
  · intro sd hsd
    refine ⟨?_, ?_⟩ <;> intro hf <;>
      simp [fullRecordB, sentimentScoreOf, sentimentLabelOf, hsd, hf, jsOrStr]

/-- C6 witness: a concrete invocation whose NLU response is the empty object
still saves one record, with every score 0 and the label `neutral`. -/
theorem upstream_defaults_degrade_witness :
    (handlerB inputEmptyNlu).response.success = true ∧
    (handlerB inputEmptyNlu).response.status = 200 ∧
    (handlerB inputEmptyNlu).dbCreates
      = [fullRecordB (parseJson inputEmptyNlu.body) {} inputEmptyNlu.now
          (truncate (some (trim (("I am delighted today").data))) 10000)
          (jsOrStr inputEmptyNlu.env.watsonLanguage (("en").data))] ∧
    ∀ rcd ∈ (handlerB inputEmptyNlu).dbCreates,
      (({} : NluResult).emotionDocEmotion = none →
        rcd.joy = 0 ∧ rcd.sadness = 0 ∧ rcd.anger = 0 ∧ rcd.fear = 0 ∧
        rcd.disgust = 0) ∧
      (∀ es, ({} : NluResult).emotionDocEmotion = some es →
        (es.joy = none → rcd.joy = 0) ∧ (es.sadness = none → rcd.sadness = 0) ∧
        (es.anger = none → rcd.anger = 0) ∧ (es.fear = none → rcd.fear = 0) ∧
        (es.disgust = none → rcd.disgust = 0)) ∧
      (({} : NluResult).sentimentDoc = none →
        rcd.sentiment = 0 ∧ rcd.sentiment_label = ("neutral").data) ∧
      (∀ sd, ({} : NluResult).sentimentDoc = some sd →
        (sd.score = none → rcd.sentiment = 0) ∧
        (sd.label = none → rcd.sentiment_label = ("neutral").data)) :=
  upstream_defaults_degrade inputEmptyNlu (("db1").data) (("coll1").data)
    (("I am delighted today").data) (("doc1").data) {}
    rfl rfl rfl rfl (by decide) rfl rfl rfl

/-- Helper: a trimmed text longer than 10000 characters truncates to its
first 10000 characters. -/
theorem truncate_overlong (t : Str) (hlen : 10000 < (trim t).length) :
    truncate (some (trim t)) 10000 = (trim t).take 10000 ∧
    ((trim t).take 10000).length = 10000 := by
  have hne : trim t ≠ [] := by
    intro h
    rw [h] at hlen
    simp at hlen
  have h0 : ¬ ((trim t).isEmpty = true) := by
    simp only [List.isEmpty_iff]
    exact hne
  constructor
  · simp only [truncate]
    rw [if_neg h0, if_pos hlen]
  · rw [List.length_take]
    omega

/-- Helper: a truthy `responseId` and a string `text` with non-empty trim
pass validation. -/
theorem validPayload_some (b : Body) (t : Str) (hr : b.responseId.truthy = true)
    (htext : b.text = JsVal.strv t) (ht : ¬ (trim t = [])) :
    validPayload b = some t := by
  simp only [validPayload, hr, if_true, htext]
  rw [if_neg ht]

/-- C4: for a validated payload whose trimmed text exceeds 10000 characters
(with the short-text minimum at most 10000, as by default), the text handed
to the NLU call is the 10000-character truncation, and every record handed
to `createDocument` carries `textLen = 10000`, not the original length; the
`src/index.js` variant likewise calls the NLU with the truncated text. -/
theorem overlong_text_truncated (ib : HandlerInputB) (ia : HandlerInputA)
    (d c t da ca ta : Str)
    (hdb : requireEnv ib.env.appwriteDatabaseId (("APPWRITE_DATABASE_ID").data)
      = Except.ok d)
    (hcoll : requireEnv ib.env.appwriteAnalysisCollectionId
      (("APPWRITE_ANALYSIS_COLLECTION_ID").data) = Except.ok c)
    (hval : validPayload (parseJson ib.body) = some t)
    (hgdb : getDB ib.env = Except.ok ())
    (hlen : 10000 < (trim t).length)
    (hmin : ib.env.watsonMinLen.getD 8 ≤ 10000)
    (hw : getWatson ib.env = Except.ok ())
    (hdbA : requireEnv ia.env.appwriteDatabaseId (("APPWRITE_DATABASE_ID").data)
      = Except.ok da)
    (hcollA : requireEnv ia.env.appwriteAnalysisCollectionId
      (("APPWRITE_ANALYSIS_COLLECTION_ID").data) = Except.ok ca)
    (hvalA : validPayload (parseJson ia.body) = some ta)
    (hlenA : 10000 < (trim ta).length)
    (hwA : getWatson ia.env = Except.ok ()) :
    (handlerB ib).nluText = some ((trim t).take 10000) ∧
    ((trim t).take 10000).length = 10000 ∧
    (∀ rcd ∈ (handlerB ib).dbCreates,
      rcd.textLen = 10000 ∧ rcd.textLen ≠ (trim t).length) ∧
    (handlerA ia).nluText = some ((trim ta).take 10000) := by
  obtain ⟨htr, hlt⟩ := truncate_overlong t hlen
  obtain ⟨htrA, hltA⟩ := truncate_overlong ta hlenA
  have hnotshort : ¬ ((truncate (some (trim t)) 10000).length : Int)
      < ib.env.watsonMinLen.getD 8 := by
    rw [htr, hlt]
    omega
  have hBtext : (handlerB ib).nluText = some (truncate (some (trim t)) 10000) := by
    unfold handlerB
    cases h6 : (withRetry ib.nlu 2 600).result with
    | error e => simp [hdb, hcoll, hval, hgdb, hnotshort, hw, h6]
    | ok res =>
      cases h7 : ib.db (fullRecordB (parseJson ib.body) res ib.now
          (truncate (some (trim t)) 10000)
          (jsOrStr ib.env.watsonLanguage (("en").data))) with
      | error m => simp [hdb, hcoll, hval, hgdb, hnotshort, hw, h6, h7]
      | ok docId => simp [hdb, hcoll, hval, hgdb, hnotshort, hw, h6, h7]
  have hBlen : ∀ rcd ∈ (handlerB ib).dbCreates,
      rcd.textLen = (truncate (some (trim t)) 10000).length := by
    intro rcd hmem
    unfold handlerB at hmem
    cases h6 : (withRetry ib.nlu 2 600).result with
    | error e => simp [hdb, hcoll, hval, hgdb, hnotshort, hw, h6] at hmem
    | ok res =>
      cases h7 : ib.db (fullRecordB (parseJson ib.body) res ib.now
          (truncate (some (trim t)) 10000)
          (jsOrStr ib.env.watsonLanguage (("en").data))) with
      | error m =>
          simp [hdb, hcoll, hval, hgdb, hnotshort, hw, h6, h7] at hmem
          subst hmem
          rfl
      | ok docId =>
          simp [hdb, hcoll, hval, hgdb, hnotshort, hw, h6, h7] at hmem
          subst hmem
          rfl
  have hAtext : (handlerA ia).nluText = some (truncate (some (trim ta)) 10000) := by
    unfold handlerA
    cases h6 : (withRetry ia.nlu 2 600).result with
    | error e => simp [hdbA, hcollA, hvalA, hwA, h6]
    | ok res =>
      cases h7 : getDB ia.env with
      | error m => simp [hdbA, hcollA, hvalA, hwA, h6, h7]
      | ok u =>
        cases h8 : ia.db (fullRecordA (parseJson ia.body) res ia.now) with
        | error m => simp [hdbA, hcollA, hvalA, hwA, h6, h7, h8]
        | ok docId => simp [hdbA, hcollA, hvalA, hwA, h6, h7, h8]
  refine ⟨by rw [hBtext, htr], hlt, ?_, by rw [hAtext, htrA]⟩
  intro rcd hmem
  have hx := hBlen rcd hmem
  rw [htr, hlt] at hx
  exact ⟨hx, by omega⟩

/-- C4 witness: a 10001-character text is cut to 10000 characters before the
NLU call in both variants, and the saved record carries `textLen = 10000`. -/
theorem overlong_text_truncated_witness :
    (handlerB inputLong).nluText = some ((trim longText).take 10000) ∧
    ((trim longText).take 10000).length = 10000 ∧
    (∀ rcd ∈ (handlerB inputLong).dbCreates,
      rcd.textLen = 10000 ∧ rcd.textLen ≠ (trim longText).length) ∧
    (handlerA inputLongA).nluText = some ((trim longText).take 10000) := by
  have hstep : (List.replicate (10000 + 1) 'a').dropWhile isJsWhitespace
      = List.replicate (10000 + 1) 'a' := by
    rw [List.replicate_succ, List.dropWhile_cons,
      if_neg (by decide : ¬ (isJsWhitespace 'a' = true)), ← List.replicate_succ]
  have htrim : trim longText = longText := by
    unfold trim longText
    rw [show (10001 : Nat) = 10000 + 1 from rfl, hstep, List.reverse_replicate,
        hstep, List.reverse_replicate]
  have hlen : 10000 < (trim longText).length := by
    rw [htrim]
    unfold longText
    rw [List.length_replicate]
    norm_num
  have hne : ¬ (trim longText = []) := by
    intro h
    rw [h] at hlen
    simp at hlen
  have hvalBody : validPayload bodyLong = some longText :=
    validPayload_some bodyLong longText (by decide) rfl hne
  exact overlong_text_truncated inputLong inputLongA
    (("db1").data) (("coll1").data) longText
    (("db1").data) (("coll1").data) longText
    rfl rfl hvalBody rfl hlen (by decide) rfl rfl rfl hvalBody hlen rfl

/-- C2 counterexample: a validated payload whose NLU provider fails on both
attempts ends in a 500 response with zero `createDocument` calls, so an
invocation that does not fail validation can create no record at all. -/
theorem nlu_failure_skips_createDocument :
    validPayload (parseJson cexNluFailInput.body)
      = some (("I am delighted today").data) ∧
    (handlerB cexNluFailInput).dbCreates = [] ∧
    (handlerB cexNluFailInput).response.status = 500 ∧
    (handlerB cexNluFailInput).response.success = false :=
  ⟨rfl, rfl, rfl, rfl⟩

/-- C2 (amended): each handler invocation performs at most one
`createDocument` call — and never an update or delete, `createDocument`
being the only database operation in the source — and performs exactly one
whenever validation and configuration succeed and either the short-text
branch is taken or the NLU call succeeds within its 2 attempts; an
invocation whose NLU attempts are exhausted creates nothing. -/
theorem createDocument_at_most_once (ia : HandlerInputA) (ib : HandlerInputB) :
    (handlerA ia).dbCreates.length ≤ 1 ∧
    (handlerB ib).dbCreates.length ≤ 1 ∧
    (∀ (d c t : Str),
      requireEnv ib.env.appwriteDatabaseId (("APPWRITE_DATABASE_ID").data)
        = Except.ok d →
      requireEnv ib.env.appwriteAnalysisCollectionId
        (("APPWRITE_ANALYSIS_COLLECTION_ID").data) = Except.ok c →
      validPayload (parseJson ib.body) = some t →
      getDB ib.env = Except.ok () →
      ((truncate (some (trim t)) 10000).length : Int)
        < ib.env.watsonMinLen.getD 8 →
      (handlerB ib).dbCreates.length = 1) ∧
    (∀ (d c t : Str) (res : NluResult),
      requireEnv ib.env.appwriteDatabaseId (("APPWRITE_DATABASE_ID").data)
        = Except.ok d →
      requireEnv ib.env.appwriteAnalysisCollectionId
        (("APPWRITE_ANALYSIS_COLLECTION_ID").data) = Except.ok c →
      validPayload (parseJson ib.body) = some t →
      getDB ib.env = Except.ok () →
      ¬ ((truncate (some (trim t)) 10000).length : Int)
        < ib.env.watsonMinLen.getD 8 →
      getWatson ib.env = Except.ok () →
      (withRetry ib.nlu 2 600).result = Except.ok res →
      (handlerB ib).dbCreates.length = 1) ∧
    (∀ (d c t : Str) (res : NluResult),
      requireEnv ia.env.appwriteDatabaseId (("APPWRITE_DATABASE_ID").data)
        = Except.ok d →
      requireEnv ia.env.appwriteAnalysisCollectionId
        (("APPWRITE_ANALYSIS_COLLECTION_ID").data) = Except.ok c →
      validPayload (parseJson ia.body) = some t →
      getWatson ia.env = Except.ok () →
      (withRetry ia.nlu 2 600).result = Except.ok res →
      getDB ia.env = Except.ok () →
      (handlerA ia).dbCreates.length = 1) := by
  refine ⟨?_, ?_, ?_, ?_, ?_⟩
  · unfold handlerA
    cases h1 : requireEnv ia.env.appwriteDatabaseId (("APPWRITE_DATABASE_ID").data) with
    | error m => simp [h1]
    | ok d =>
    cases h2 : requireEnv ia.env.appwriteAnalysisCollectionId
        (("APPWRITE_ANALYSIS_COLLECTION_ID").data) with
    | error m => simp [h1, h2]
    | ok c =>
    cases h3 : validPayload (parseJson ia.body) with
    | none => simp [h1, h2, h3]
    | some t =>
    cases h4 : getWatson ia.env with
    | error m => simp [h1, h2, h3, h4]
    | ok u =>
    cases h5 : (withRetry ia.nlu 2 600).result with
    | error e => simp [h1, h2, h3, h4, h5]
    | ok res =>
    cases h6 : getDB ia.env with
    | error m => simp [h1, h2, h3, h4, h5, h6]
    | ok u2 =>
    cases h7 : ia.db (fullRecordA (parseJson ia.body) res ia.now) with
    | error m => simp [h1, h2, h3, h4, h5, h6, h7]
    | ok docId => simp [h1, h2, h3, h4, h5, h6, h7]
  · unfold handlerB
    cases h1 : requireEnv ib.env.appwriteDatabaseId (("APPWRITE_DATABASE_ID").data) with
    | error m => simp [h1]
    | ok d =>
    cases h2 : requireEnv ib.env.appwriteAnalysisCollectionId
        (("APPWRITE_ANALYSIS_COLLECTION_ID").data) with
    | error m => simp [h1, h2]
    | ok c =>
    cases h3 : validPayload (parseJson ib.body) with
    | none => simp [h1, h2, h3]
    | some t =>
    cases h4 : getDB ib.env with
    | error m => simp [h1, h2, h3, h4]
    | ok u =>
    by_cases hc : ((truncate (some (trim t)) 10000).length : Int)
        < ib.env.watsonMinLen.getD 8
    · cases h5 : ib.db (neutralRecordB (parseJson ib.body) ib.now
          (truncate (some (trim t)) 10000)) with
      | error m => simp [h1, h2, h3, h4, h5, hc]
      | ok docId => simp [h1, h2, h3, h4, h5, hc]
    · cases h5 : getWatson ib.env with
      | error m => simp [h1, h2, h3, h4, h5, hc]
      | ok u2 =>
      cases h6 : (withRetry ib.nlu 2 600).result with
      | error e => simp [h1, h2, h3, h4, h5, h6, hc]
      | ok res =>
      cases h7 : ib.db (fullRecordB (parseJson ib.body) res ib.now
          (truncate (some (trim t)) 10000)
          (jsOrStr ib.env.watsonLanguage (("en").data))) with
      | error m => simp [h1, h2, h3, h4, h5, h6, h7, hc]
      | ok docId => simp [h1, h2, h3, h4, h5, h6, h7, hc]
  · intro d c t hdq hcq hvq hgq hsq
    unfold handlerB
    cases h5 : ib.db (neutralRecordB (parseJson ib.body) ib.now
        (truncate (some (trim t)) 10000)) with
    | error m => simp [hdq, hcq, hvq, hgq, hsq, h5]
    | ok docId => simp [hdq, hcq, hvq, hgq, hsq, h5]
  · intro d c t res hdq hcq hvq hgq hnq hwq hrq
    unfold handlerB
    cases h7 : ib.db (fullRecordB (parseJson ib.body) res ib.now
        (truncate (some (trim t)) 10000)
        (jsOrStr ib.env.watsonLanguage (("en").data))) with
    | error m => simp [hdq, hcq, hvq, hgq, hnq, hwq, hrq, h7]
    | ok docId => simp [hdq, hcq, hvq, hgq, hnq, hwq, hrq, h7]
  · intro d c t res hdq hcq hvq hwq hrq hgq
    unfold handlerA
    cases h7 : ia.db (fullRecordA (parseJson ia.body) res ia.now) with
    | error m => simp [hdq, hcq, hvq, hwq, hrq, hgq, h7]
    | ok docId => simp [hdq, hcq, hvq, hwq, hrq, hgq, h7]

/-- C2 witness: concrete invocations hitting the bound and both
exactly-one clauses — the short path, the full path, and the
`src/index.js` full path. -/
theorem createDocument_at_most_once_witness :
    (handlerA inputMissingFieldsA).dbCreates.length ≤ 1 ∧
    (handlerB cexNluFailInput).dbCreates.length ≤ 1 ∧
    (handlerB inputShort).dbCreates.length = 1 ∧
    (handlerB inputEmptyNlu).dbCreates.length = 1 ∧
    (handlerA inputOkA).dbCreates.length = 1 :=
  ⟨(createDocument_at_most_once inputMissingFieldsA cexNluFailInput).1,
   (createDocument_at_most_once inputMissingFieldsA cexNluFailInput).2.1,
   (createDocument_at_most_once inputMissingFieldsA inputShort).2.2.1
     (("db1").data) (("coll1").data) (("ok").data) rfl rfl rfl rfl (by decide),
   (createDocument_at_most_once inputMissingFieldsA inputEmptyNlu).2.2.2.1
     (("db1").data) (("coll1").data) (("I am delighted today").data) {}
     rfl rfl rfl rfl (by decide) rfl rfl,
   (createDocument_at_most_once inputOkA cexNluFailInput).2.2.2.2
     (("db1").data) (("coll1").data) (("I am delighted today").data) {}
     rfl rfl rfl rfl rfl rfl⟩

/-- C8: an absent or unparseable body parses to the empty object, the
invocation is indistinguishable from one whose parsed body lacks
`responseId` and `text`, and with the required configuration present it
yields the same 400 validation response with no external call and no
write. -/
theorem empty_or_malformed_body_as_missing_fields
    (env : Env) (now : Str) (nlu : Nat → Except Str NluResult)
    (dba : AnalysisRecordA → Except Str Str)
    (dbb : AnalysisRecordB → Except Str Str) :
    parseJson RawBody.empty = {} ∧
    parseJson RawBody.malformed = {} ∧
    handlerB ⟨env, RawBody.empty, now, nlu, dbb⟩
      = handlerB ⟨env, RawBody.json {}, now, nlu, dbb⟩ ∧
    handlerB ⟨env, RawBody.malformed, now, nlu, dbb⟩
      = handlerB ⟨env, RawBody.json {}, now, nlu, dbb⟩ ∧
    handlerA ⟨env, RawBody.empty, now, nlu, dba⟩
      = handlerA ⟨env, RawBody.json {}, now, nlu, dba⟩ ∧
    handlerA ⟨env, RawBody.malformed, now, nlu, dba⟩
      = handlerA ⟨env, RawBody.json {}, now, nlu, dba⟩ ∧
    (∀ (d c : Str),
      requireEnv env.appwriteDatabaseId (("APPWRITE_DATABASE_ID").data)
        = Except.ok d →
      requireEnv env.appwriteAnalysisCollectionId
        (("APPWRITE_ANALYSIS_COLLECTION_ID").data) = Except.ok c →
      handlerB ⟨env, RawBody.empty, now, nlu, dbb⟩
        = ⟨invalidResponse, 0, none, []⟩ ∧
      handlerB ⟨env, RawBody.malformed, now, nlu, dbb⟩
        = ⟨invalidResponse, 0, none, []⟩ ∧
      handlerA ⟨env, RawBody.empty, now, nlu, dba⟩
        = ⟨invalidResponse, 0, none, []⟩ ∧
      handlerA ⟨env, RawBody.malformed, now, nlu, dba⟩
        = ⟨invalidResponse, 0, none, []⟩) := by
  refine ⟨rfl, rfl, rfl, rfl, rfl, rfl, ?_⟩
  intro d c hd hc
  have hv : validPayload (Body.mk JsVal.undef JsVal.undef JsVal.undef) = none := rfl
  refine ⟨?_, ?_, ?_, ?_⟩ <;>
    simp [handlerA, handlerB, parseJson, hd, hc, hv]

/-- C8 witness: with every environment variable set, the empty and the
malformed raw body each produce exactly the 400 validation outcome in both
variants. -/
theorem empty_or_malformed_body_witness :
    handlerB ⟨envAllSet, RawBody.empty, ("t0").data, nluEmptyOk, dbOkB⟩
      = ⟨invalidResponse, 0, none, []⟩ ∧
    handlerB ⟨envAllSet, RawBody.malformed, ("t0").data, nluEmptyOk, dbOkB⟩
      = ⟨invalidResponse, 0, none, []⟩ ∧
    handlerA ⟨envAllSet, RawBody.empty, ("t0").data, nluEmptyOk, dbOkA⟩
      = ⟨invalidResponse, 0, none, []⟩ ∧
    handlerA ⟨envAllSet, RawBody.malformed, ("t0").data, nluEmptyOk, dbOkA⟩
      = ⟨invalidResponse, 0, none, []⟩ :=
  (empty_or_malformed_body_as_missing_fields envAllSet (("t0").data)
      nluEmptyOk dbOkA dbOkB).2.2.2.2.2.2
    (("db1").data) (("coll1").data) rfl rfl

end AnalyzeEmotion
